import Mathlib

/-!
Shallow embedding of the ventechback order and transaction controllers.
Definitions are translated from src/src/controllers/order.controller.ts and
from the transaction controller in src/unnamed/part_001.  Monetary values are
modelled as integers (all claim-relevant arithmetic on them is ring-exact), database tables as lists, and JavaScript truthiness is
made explicit through small helper functions.
-/

namespace Ventech

/-- JavaScript truthiness for an optional string: null, undefined and the
empty string are falsy. -/
def strFalsy : Option String → Bool
  | none => true
  | some s => s == ""

/-- JavaScript a-or-b for optional numbers: null, undefined and 0 fall
through to the right operand. -/
def jsOrNum (a : Option Int) (b : Int) : Int :=
  match a with
  | none => b
  | some x => if x = 0 then b else x

/-- JavaScript a-or-b for integers where 0 is falsy. -/
def jsOrInt (a b : Int) : Int := if a = 0 then b else a

/-- JavaScript a-or-b for optional strings where the empty string is falsy. -/
def jsOrStr (a : Option String) (b : String) : String :=
  match a with
  | none => b
  | some s => if s == "" then b else s

/-- JavaScript a-or-b on two strings where the empty string is falsy. -/
def strOr (a b : String) : String := if a == "" then b else a

/-- JavaScript String.prototype.trim, over the character list of the string. -/
def jsTrim (s : String) : String :=
  ⟨((s.data.dropWhile Char.isWhitespace).reverse.dropWhile Char.isWhitespace).reverse⟩

/-- JavaScript String.prototype.toLowerCase, restricted to ASCII case mapping. -/
def jsLower (s : String) : String := ⟨s.data.map Char.toLower⟩

/-- HTTP-level outcome of a request handler, abstracted from the JSON body. -/
inductive HResp
  | ok
  | badRequest
  | forbidden
  | notFound
  | serverError
deriving Repr, DecidableEq

/-- Row of the products table: the fields read and written by the order
handlers (id, name, stock_quantity, in_stock). -/
structure Product where
  id : String
  name : String
  stock_quantity : Int
  in_stock : Bool
deriving Repr, DecidableEq

/-- Row of the order_items table, restricted to the fields the controllers
read or write. -/
structure ItemRow where
  order_id : Nat
  product_id : Option String
  quantity : Int
  unit_price : Int
  total_price : Int
deriving Repr, DecidableEq

/-- Row of the orders table.  The is_pre_order column and the is_pre_order
flag inside the shipping_address JSON are kept as two separate fields, since
the handlers consult them separately. -/
structure OrderRow where
  id : Nat
  order_number : String
  user_id : Option String
  status : String
  payment_status : String
  is_pre_order : Bool
  ship_is_pre_order : Bool
  ship_email : Option String
  subtotal : Int
  discount : Int
  tax : Int
  shipping_fee : Int
  total : Int
  notes : Option String
  tracking_number : Option String
deriving Repr, DecidableEq

/-- Stock restoration for a single order item.  Embeds the loop body at
order.controller.ts lines 267-302 (updateOrderStatus) and lines 517-549
(cancelOrder), whose logic is identical: skip items with a falsy product id
or quantity, read the current stock, add the item quantity back and set
in_stock to whether the restored stock is positive. -/
def restoreItemStock (products : List Product) (item : ItemRow) : List Product :=
  match item.product_id with
  | none => products
  | some pid =>
    if pid == "" || item.quantity == 0 then products
    else
      match products.find? (fun p => p.id == pid) with
      | none => products
      | some prod =>
        let currentStock := prod.stock_quantity
        let restoredStock := currentStock + item.quantity
        let newInStock := decide (restoredStock > 0)
        products.map (fun p =>
          if p.id == pid then
            { p with stock_quantity := restoredStock, in_stock := newInStock }
          else p)

/-- Stock restoration over all items of an order, in order. -/
def restoreStock (items : List ItemRow) (products : List Product) : List Product :=
  items.foldl restoreItemStock products

/-- Result of updateOrderStatus or cancelOrder: the response, the updated
order row, the updated products table, and whether stock restoration ran. -/
structure StatusUpdate where
  resp : HResp
  order : OrderRow
  products : List Product
  restored : Bool
deriving Repr, DecidableEq

/-- OrderController.updateOrderStatus (order.controller.ts lines 232-403),
restricted to its database effects.  The order row and its joined order_items
are the fetched existing order; stock is restored exactly when the new status
is cancelled, the previous status was not cancelled, the order is not a
pre-order (column or shipping_address flag), and the payment status is not
refunded; then the order row is updated with the new status, tracking number
and notes. -/
def updateOrderStatus (order : OrderRow) (orderItems : List ItemRow)
    (products : List Product) (status : String)
    (tracking : Option String) (notes : Option String) : StatusUpdate :=
  let isPreOrder : Bool := order.is_pre_order || order.ship_is_pre_order
  let previousStatus := order.status
  let isChangingToCancelled : Bool :=
    (status == "cancelled") && !(previousStatus == "cancelled")
  let isRefunded : Bool := order.payment_status == "refunded"
  let doRestore : Bool := isChangingToCancelled && !isPreOrder && !isRefunded
  let products' := if doRestore then restoreStock orderItems products else products
  let order' := { order with status := status, tracking_number := tracking, notes := notes }
  ⟨HResp.ok, order', products', doRestore⟩

/-- Shared tail of cancelOrder after the ownership checks pass
(order.controller.ts lines 493-558): set the status to cancelled, append the
cancellation reason to the notes when one is given, and restore stock exactly
when the previous status was not cancelled and the is_pre_order column is
false.  Note that, unlike updateOrderStatus, this site consults only the
is_pre_order column, never the shipping_address flag. -/
def cancelProceed (order : OrderRow) (orderItems : List ItemRow)
    (products : List Product) (reason : Option String) : StatusUpdate :=
  let notes' :=
    if strFalsy reason then order.notes
    else some (jsTrim ((order.notes.getD "") ++ "\n\n[CANCELLED] " ++ reason.getD ""))
  let order' := { order with status := "cancelled", notes := notes' }
  let doRestore : Bool := !(order.status == "cancelled") && !order.is_pre_order
  let products' := if doRestore then restoreStock orderItems products else products
  ⟨HResp.ok, order', products', doRestore⟩

/-- OrderController.cancelOrder (order.controller.ts lines 451-618),
restricted to its database effects.  Guest orders (no user id) require a
matching email; then the order is cancelled and stock possibly restored. -/
def cancelOrder (order : OrderRow) (orderItems : List ItemRow)
    (products : List Product) (reason : Option String)
    (email : Option String) : StatusUpdate :=
  if order.user_id.isNone && !(strFalsy email) then
    if strFalsy order.ship_email
        || !(jsLower (order.ship_email.getD "") == jsLower (email.getD "")) then
      ⟨HResp.forbidden, order, products, false⟩
    else cancelProceed order orderItems products reason
  else if order.user_id.isNone && strFalsy email then
    ⟨HResp.badRequest, order, products, false⟩
  else cancelProceed order orderItems products reason

/-- One admin-side operation on an order: a cancelOrder request or an
updateOrderStatus request with a target status. -/
inductive AdminOp
  | cancel (reason : Option String) (email : Option String)
  | setStatus (status : String) (tracking : Option String) (notes : Option String)
deriving Repr, DecidableEq

/-- Joint state of one order, its line items and the products table. -/
structure OrderState where
  order : OrderRow
  orderItems : List ItemRow
  products : List Product
deriving Repr, DecidableEq

/-- Apply one admin operation, returning the new state and whether stock
restoration ran during the operation. -/
def applyOp (s : OrderState) (op : AdminOp) : OrderState × Bool :=
  match op with
  | .cancel reason email =>
    let r := cancelOrder s.order s.orderItems s.products reason email
    (⟨r.order, s.orderItems, r.products⟩, r.restored)
  | .setStatus status tracking notes =>
    let r := updateOrderStatus s.order s.orderItems s.products status tracking notes
    (⟨r.order, s.orderItems, r.products⟩, r.restored)

/-- Run a sequence of admin operations, counting how many of them performed
stock restoration. -/
def runOps (s : OrderState) : List AdminOp → OrderState × Nat
  | [] => (s, 0)
  | op :: rest =>
    let p := applyOp s op
    let q := runOps p.1 rest
    (q.1, (if p.2 then 1 else 0) + q.2)

/-- Numeric value of an ASCII digit character. -/
def digitVal (c : Char) : Nat := c.toNat - 48

/-- Match the regular expression ORD-digit-digit-digit at the head of a
character list, returning the three-digit number. -/
def matchORDAt : List Char → Option Nat
  | 'O' :: 'R' :: 'D' :: '-' :: a :: b :: c :: _ =>
    if a.isDigit && b.isDigit && c.isDigit then
      some (100 * digitVal a + 10 * digitVal b + digitVal c)
    else none
  | _ => none

/-- Leftmost match of the regular expression used at order.controller.ts
line 643 over a character list. -/
def extractSeq : List Char → Option Nat
  | [] => none
  | c :: rest =>
    match matchORDAt (c :: rest) with
    | some n => some n
    | none => extractSeq rest

/-- Zero-pad a natural number to two digits, as String.padStart(2, zero). -/
def pad2 (n : Nat) : String := if n < 10 then "0" ++ toString n else toString n

/-- Zero-pad a natural number to three digits, as String.padStart(3, zero). -/
def pad3 (n : Nat) : String :=
  if n < 10 then "00" ++ toString n
  else if n < 100 then "0" ++ toString n
  else toString n

/-- Last two characters of a string, as String.prototype.slice(-2). -/
def lastTwo (s : String) : String := ⟨s.data.drop (s.data.length - 2)⟩

/-- The DDMMYY date string built at order.controller.ts lines 624-628. -/
def dateStrOf (day month year : Nat) : String :=
  pad2 day ++ pad2 month ++ lastTwo (toString year)

/-- OrderController.generateOrderNumber (order.controller.ts lines 621-665),
on its success path.  The current date is passed as day, month and full year;
lastOrderNumber is the order_number of the most recent order created today,
when one exists. -/
def generateOrderNumber (day month year : Nat)
    (lastOrderNumber : Option String) : String :=
  let dateStr := dateStrOf day month year
  let sequence : Nat :=
    if strFalsy lastOrderNumber then 1
    else
      match extractSeq (lastOrderNumber.getD "").data with
      | some n => if n + 1 > 999 then 1 else n + 1
      | none => 1
  "ORD-" ++ pad3 sequence ++ dateStr

/-- Row of the transactions table, restricted to the fields the controllers
read or write.  The metadata JSON is modelled by its two keys that
createOrder overwrites plus an abstract remainder that is preserved. -/
structure Txn where
  id : Nat
  order_id : Option Nat
  user_id : Option String
  transaction_reference : String
  paystack_reference : Option String
  payment_method : String
  payment_provider : String
  amount : Int
  status : String
  payment_status : String
  customer_email : Option String
  meta_customer_name : String
  meta_order_number : String
  meta_rest : List (String × String)
deriving Repr, DecidableEq

/-- Predicate applied by the transaction lookup at order.controller.ts lines
1189-1194.  The supabase query chains an eq filter on transaction_reference
with an or group on paystack_reference; chained filters are combined
conjunctively by the query builder, so a row matches only when both columns
equal the reference. -/
def txnMatchesRef (ref : String) (t : Txn) : Bool :=
  t.transaction_reference == ref && t.paystack_reference == some ref

/-- The create-or-link step for the transaction record inside createOrder
(order.controller.ts lines 1186-1239).  When a truthy payment reference is
given and the lookup finds an existing transaction, that row is updated in
place with the order id, user id, customer email and merged metadata;
otherwise a new row built from base is inserted, carrying the reference in
paystack_reference when one was given. -/
def upsertTransaction (txns : List Txn) (paymentRef : Option String)
    (orderId : Nat) (userId : Option String) (customerEmail : Option String)
    (customerName : String) (orderNumber : String) (base : Txn) : List Txn :=
  if !(strFalsy paymentRef) then
    let ref := paymentRef.getD ""
    match txns.find? (txnMatchesRef ref) with
    | some ex =>
      txns.map (fun t =>
        if t.id == ex.id then
          { t with
            order_id := some orderId
            user_id := userId
            customer_email := customerEmail
            meta_customer_name := customerName
            meta_order_number := orderNumber }
        else t)
    | none => txns ++ [{ base with paystack_reference := some ref }]
  else txns ++ [base]

/-- Database state seen by the transaction controller: the transactions
table and the orders table it joins against. -/
structure TDB where
  txns : List Txn
  orders : List OrderRow
deriving Repr, DecidableEq

/-- TransactionController.refundTransaction (src/unnamed/part_001 lines
300-385), restricted to its database effects.  The fetch uses .single(),
which produces an error when no row matches; the handler rethrows that
error and the catch block answers 500, so a missing transaction yields 500
and the explicit 404 branch in the source is unreachable dead code, as is
the subsequent already-refunded check.  A transaction whose payment_status
is not paid yields 400; on success the transaction status and
payment_status become refunded, and the linked order payment_status becomes
refunded exactly when that order exists and its status is cancelled or
pending. -/
def refundTransaction (db : TDB) (id : Nat) : HResp × TDB :=
  match db.txns.find? (fun t => t.id == id) with
  | none => (HResp.serverError, db)
  | some txn =>
    if !(txn.payment_status == "paid") then (HResp.badRequest, db)
    else
      let txns' := db.txns.map (fun t =>
        if t.id == id then { t with payment_status := "refunded", status := "refunded" }
        else t)
      let orders' :=
        match txn.order_id with
        | none => db.orders
        | some oid =>
          match db.orders.find? (fun o => o.id == oid) with
          | none => db.orders
          | some ord =>
            if ord.status == "cancelled" || ord.status == "pending" then
              db.orders.map (fun o =>
                if o.id == oid then { o with payment_status := "refunded" } else o)
            else db.orders
      (HResp.ok, ⟨txns', orders'⟩)

/-- The whitelist checked by updatePaymentStatus at order.controller.ts
line 411. -/
def allowedPaymentStatuses : List String := ["pending", "paid", "failed", "refunded"]

/-- OrderController.updatePaymentStatus (order.controller.ts lines 406-448),
restricted to its database effects on the addressed order row.  A falsy or
non-whitelisted payment_status is rejected with 400 before any database
access; otherwise the order payment_status is set to the given value. -/
def updatePaymentStatus (order : OrderRow) (paymentStatus : Option String) :
    HResp × OrderRow :=
  if strFalsy paymentStatus
      || !(allowedPaymentStatuses.contains (paymentStatus.getD "")) then
    (HResp.badRequest, order)
  else
    (HResp.ok, { order with payment_status := paymentStatus.getD "" })

/-- One element of the order_items array of a createOrder request body. -/
structure OrderItemReq where
  product_id : Option String
  product_name : String
  product_image : Option String
  quantity : Int
  unit_price : Int
  subtotal : Option Int
  total_price : Option Int
deriving Repr, DecidableEq

/-- The delivery_address JSON of a createOrder request, restricted to the
fields read by the controller. -/
structure Address where
  email : Option String
  full_name : Option String
  first_name : Option String
deriving Repr, DecidableEq

/-- The customer_bio JSON of a createOrder request. -/
structure Bio where
  name : Option String
  email : Option String
deriving Repr, DecidableEq

/-- Row of the users table as selected at order.controller.ts lines 1133-1137. -/
structure UserRec where
  first_name : Option String
  last_name : Option String
  email : Option String
  full_name : Option String
deriving Repr, DecidableEq

/-- Body of a createOrder request (order.controller.ts lines 680-699).  An
absent order_items array is modelled as the empty list; both are rejected by
the same check. -/
structure CreateOrderReq where
  user_id : Option String
  order_number : Option String
  subtotal : Option Int
  discount : Option Int
  tax : Option Int
  delivery_fee : Option Int
  total : Option Int
  payment_method : Option String
  delivery_address : Option Address
  customer_bio : Option Bio
  order_items : List OrderItemReq
  notes : Option String
  payment_reference : Option String
  is_pre_order : Bool
  pre_order_shipping_option : Option String
  estimated_arrival_date : Option String
  coupon_id : Option String
deriving Repr, DecidableEq

/-- Outcomes of the database and service calls made by createOrder that are
not determined by the modelled tables: query failures, the most recent order
number of the day, availability of the stock-decrement RPC, and the user
lookup result. -/
structure Oracle where
  productsCheckFails : Bool
  lastOrderToday : Option String
  orderInsertFails : Bool
  itemsInsertFails : Bool
  orderDeleteFails : Bool
  rpcAvailable : Bool
  userLookup : Option UserRec
deriving Repr, DecidableEq

/-- Database state touched by createOrder: the orders, order_items, products,
transactions and notifications tables (the latter abstracted to a row count). -/
structure DB where
  orders : List OrderRow
  items : List ItemRow
  products : List Product
  txns : List Txn
  notifications : Nat
deriving Repr, DecidableEq

/-- The externally visible side-effect steps of createOrder named by the
specification, in the order the handler body attempts them. -/
inductive Step
  | validateProducts
  | insertOrder
  | insertItems
  | deleteOrder
  | decrementStock
  | upsertTxn
  | confirmationEmail
  | adminEmail
  | adminNotification
deriving Repr, DecidableEq

/-- Per-item subtotal as recomputed at order.controller.ts line 828 when the
request subtotal is missing or zero. -/
def itemCalcSubtotal (item : OrderItemReq) : Int :=
  jsOrNum item.subtotal (item.unit_price * jsOrInt item.quantity 1)

/-- The subtotal actually used by createOrder (lines 822-831): the supplied
subtotal unless falsy, in which case the sum of the per-item subtotals. -/
def actualSubtotalOf (req : CreateOrderReq) : Int :=
  let finalSubtotal := jsOrNum req.subtotal 0
  if finalSubtotal = 0 then (req.order_items.map itemCalcSubtotal).sum
  else finalSubtotal

/-- The calculated order total (line 836): subtotal plus delivery fee plus
tax minus discount, each falsy component defaulting to zero. -/
def calculatedTotalOf (req : CreateOrderReq) : Int :=
  actualSubtotalOf req + jsOrNum req.delivery_fee 0 + jsOrNum req.tax 0
    - jsOrNum req.discount 0

/-- Construction of one order_items row (lines 958-973).  The unit price
defaults to zero only for a falsy value, which on numbers is the identity;
the stored total_price falls back from item.subtotal to item.total_price to
unit price times quantity. -/
def mkItemRow (orderId : Nat) (item : OrderItemReq) : ItemRow :=
  let itemUnitPrice := item.unit_price
  let itemSubtotal :=
    jsOrNum item.subtotal
      (jsOrNum item.total_price (itemUnitPrice * jsOrInt item.quantity 1))
  { order_id := orderId
    product_id := item.product_id
    quantity := item.quantity
    unit_price := itemUnitPrice
    total_price := itemSubtotal }

/-- Validity filter applied to product ids at order.controller.ts line 762:
the id must be truthy and not blank after trimming. -/
def validId (oid : Option String) : Bool :=
  match oid with
  | none => false
  | some s => !(s == "") && !(jsTrim s == "")

/-- Fallback stock decrement for one item (order.controller.ts lines
1022-1110): read the product, and only when the current stock is at least the
ordered quantity write back the decremented stock with in_stock set to
whether the new stock is positive.  The second component records whether the
out-of-stock branch fired (new stock zero and a truthy product name), which
inserts one notification row. -/
def decrementItemStock (products : List Product) (item : OrderItemReq) :
    List Product × Bool :=
  match item.product_id with
  | none => (products, false)
  | some pid =>
    match products.find? (fun p => p.id == pid) with
    | none => (products, false)
    | some prod =>
      let currentStock := prod.stock_quantity
      if currentStock ≥ item.quantity then
        let newStock := currentStock - item.quantity
        let newInStock := decide (newStock > 0)
        (products.map (fun p =>
            if p.id == pid then
              { p with stock_quantity := newStock, in_stock := newInStock }
            else p),
         newStock == 0 && !(prod.name == ""))
      else (products, false)

/-- Modelled from the spec: the database function decrement_product_stock
invoked at order.controller.ts line 1013 is not part of the repository
sources; the spec describes it only as an optional atomic RPC that decrements
product stock, preventing overselling, so it is modelled as decrementing the
stock exactly when sufficient stock is available. -/
def rpcDecrementStock (products : List Product) (item : OrderItemReq) :
    List Product :=
  match item.product_id with
  | none => products
  | some pid =>
    products.map (fun p =>
      if p.id == pid && decide (p.stock_quantity ≥ item.quantity) then
        { p with stock_quantity := p.stock_quantity - item.quantity }
      else p)

/-- The per-item stock loop of createOrder on the fallback path, threading
the products table and the notifications count through the database state. -/
def stockPhaseFallback : List OrderItemReq → DB → DB
  | [], db => db
  | item :: rest, db =>
    let r := decrementItemStock db.products item
    stockPhaseFallback rest
      { db with
        products := r.1
        notifications := db.notifications + (if r.2 then 1 else 0) }

/-- The stock phase of createOrder (lines 1005-1127) for non-pre-orders:
the RPC path when the database function exists, the fallback loop otherwise. -/
def applyStockPhase (rpcAvailable : Bool) (items : List OrderItemReq)
    (db : DB) : DB :=
  if rpcAvailable then
    { db with products := items.foldl rpcDecrementStock db.products }
  else stockPhaseFallback items db

/-- The user record loaded at lines 1131-1142: queried only when the request
carries a truthy user id. -/
def userDataOf (req : CreateOrderReq) (o : Oracle) : Option UserRec :=
  if strFalsy req.user_id then none else o.userLookup

/-- The customer email chosen for the transaction record (lines 1150-1160):
the user email when truthy, else the shipping-address email when truthy. -/
def txnCustomerEmailOf (req : CreateOrderReq) (o : Oracle) : Option String :=
  let shipEmail : Option String :=
    match req.delivery_address with
    | some a => if !(strFalsy a.email) then a.email else none
    | none => none
  match userDataOf req o with
  | some u => if !(strFalsy u.email) then u.email else shipEmail
  | none => shipEmail

/-- The customer name chosen for the transaction record (lines 1150-1160). -/
def txnCustomerNameOf (req : CreateOrderReq) (o : Oracle) : String :=
  let shipName : String :=
    match req.delivery_address with
    | some a =>
      if !(strFalsy a.email) then
        jsOrStr a.full_name (jsOrStr a.first_name "Guest Customer")
      else "Customer"
    | none => "Customer"
  match userDataOf req o with
  | some u =>
    if !(strFalsy u.email) then
      jsOrStr u.full_name
        (strOr (jsTrim ((u.first_name.getD "") ++ " " ++ (u.last_name.getD "")))
          "Customer")
    else shipName
  | none => shipName

/-- The customer email chosen for the order confirmation email (lines
1251-1262): the user email when truthy, else the customer_bio email. -/
def confirmationEmailOf (req : CreateOrderReq) (o : Oracle) : Option String :=
  let bioEmail : Option String :=
    match req.customer_bio with
    | some b => if !(strFalsy b.email) then b.email else none
    | none => none
  match userDataOf req o with
  | some u => if !(strFalsy u.email) then u.email else bioEmail
  | none => bioEmail

/-- The payment status assigned at lines 933 and 1148: paid exactly for a
paystack payment with a truthy reference, pending otherwise. -/
def paymentStatusOf (req : CreateOrderReq) : String :=
  if (req.payment_method == some "paystack") && !(strFalsy req.payment_reference)
  then "paid" else "pending"

/-- The transactionData record built at lines 1162-1185.  The database
assigns the row id on insert; it is never read afterwards, so it is fixed to
zero.  Numeric metadata amounts are stored stringified. -/
def mkTransactionData (req : CreateOrderReq) (o : Oracle) (orderId : Nat)
    (finalOrderNumber : String) (finalTotal : Int) : Txn :=
  let paymentStatus := paymentStatusOf req
  { id := 0
    order_id := some orderId
    user_id := req.user_id
    transaction_reference :=
      jsOrStr req.payment_reference ("TXN-" ++ ⟨(toString orderId).data.take 8⟩)
    paystack_reference := none
    payment_method := jsOrStr req.payment_method "cash_on_delivery"
    payment_provider :=
      if req.payment_method == some "paystack" then "paystack"
      else if req.payment_method == some "cash_on_delivery" then "cash"
      else "other"
    amount := finalTotal
    status := paymentStatus
    payment_status := paymentStatus
    customer_email :=
      some (jsOrStr (txnCustomerEmailOf req o) "no-email@example.com")
    meta_customer_name := txnCustomerNameOf req o
    meta_order_number := finalOrderNumber
    meta_rest :=
      [("subtotal", toString (actualSubtotalOf req)),
       ("discount", toString (jsOrNum req.discount 0)),
       ("tax", toString (jsOrNum req.tax 0)),
       ("shipping_fee", toString (jsOrNum req.delivery_fee 0)),
       ("total", toString finalTotal),
       ("payment_method", jsOrStr req.payment_method ""),
       ("order_id", toString orderId)] }

/-- The orderInsertData row built at lines 908-934.  The is_pre_order column
is not part of the insert, so it keeps the database default false; the
pre-order flag travels inside the shipping_address JSON.  Locale date
formatting inside the pre-order notes is abstracted to the raw date string. -/
def mkOrderRow (req : CreateOrderReq) (orderId : Nat)
    (finalOrderNumber : String) : OrderRow :=
  { id := orderId
    order_number := finalOrderNumber
    user_id := req.user_id
    status := "pending"
    payment_status := paymentStatusOf req
    is_pre_order := false
    ship_is_pre_order := req.is_pre_order
    ship_email := req.delivery_address.bind (fun a => a.email)
    subtotal := actualSubtotalOf req
    discount := jsOrNum req.discount 0
    tax := jsOrNum req.tax 0
    shipping_fee := jsOrNum req.delivery_fee 0
    total := calculatedTotalOf req
    notes :=
      if req.is_pre_order then
        some (jsTrim ((req.notes.getD "") ++ "\n\n[PRE-ORDER] Shipping: "
          ++ jsOrStr req.pre_order_shipping_option "Not specified"
          ++ ". Estimated Arrival: "
          ++ (match req.estimated_arrival_date with
              | some d => if d == "" then "TBD" else d
              | none => "TBD")))
      else if strFalsy req.notes then none else req.notes
    tracking_number := none }

/-- Result of a createOrder call: the response, the final database state and
the trace of attempted side-effect steps. -/
structure COResult where
  resp : HResp
  db : DB
  trace : List Step
deriving Repr, DecidableEq

/-- The order number used by createOrder (line 805): the client-supplied one
when truthy, the generated sequential one otherwise. -/
def finalOrderNumberOf (req : CreateOrderReq) (o : Oracle)
    (day month year : Nat) : String :=
  jsOrStr req.order_number (generateOrderNumber day month year o.lastOrderToday)

/-- The order-row insert of createOrder (line 939). -/
def insertOrderDb (req : CreateOrderReq) (orderId : Nat)
    (finalOrderNumber : String) (db : DB) : DB :=
  { db with orders := db.orders ++ [mkOrderRow req orderId finalOrderNumber] }

/-- The compensating delete of the order row (line 984). -/
def deleteOrderDb (orderId : Nat) (db : DB) : DB :=
  { db with orders := db.orders.filter (fun r => !(r.id == orderId)) }

/-- The order_items insert of createOrder (lines 975-977). -/
def insertItemsDb (req : CreateOrderReq) (orderId : Nat) (db : DB) : DB :=
  { db with items := db.items ++ req.order_items.map (mkItemRow orderId) }

/-- The stock phase of createOrder: skipped entirely for pre-orders. -/
def stockDb (req : CreateOrderReq) (o : Oracle) (db : DB) : DB :=
  if req.is_pre_order then db
  else applyStockPhase o.rpcAvailable req.order_items db

/-- The transaction create-or-link phase of createOrder. -/
def txnDb (req : CreateOrderReq) (o : Oracle) (orderId : Nat)
    (finalOrderNumber : String) (finalTotal : Int) (db : DB) : DB :=
  { db with
    txns := upsertTransaction db.txns req.payment_reference orderId
      req.user_id (txnCustomerEmailOf req o) (txnCustomerNameOf req o)
      finalOrderNumber (mkTransactionData req o orderId finalOrderNumber finalTotal) }

/-- The admin-notification insert of createOrder (lines 1360-1383). -/
def notifyDb (db : DB) : DB :=
  { db with notifications := db.notifications + 1 }

/-- OrderController.createOrder (order.controller.ts lines 668-1416),
restricted to its database effects and the trace of its side-effect steps.
The validation chain mirrors the source order: order items present, delivery
address present, client total positive, product ids valid, products query
succeeds, all products exist.  Then the total guards run, the order row and
item rows are inserted (the order row being deleted again when the item
insert fails), stock is decremented unless the order is a pre-order, the
transaction record is created or linked, the confirmation email is attempted
when a customer email is known, and the admin email and admin notification
are attempted unconditionally. -/
def createOrder (req : CreateOrderReq) (db : DB) (o : Oracle) (orderId : Nat)
    (day month year : Nat) : COResult :=
  if req.order_items.isEmpty then ⟨HResp.badRequest, db, []⟩
  else if req.delivery_address.isNone then ⟨HResp.badRequest, db, []⟩
  else if req.total.isNone || req.total.getD 0 ≤ 0 then ⟨HResp.badRequest, db, []⟩
  else if !(req.order_items.all (fun it => validId it.product_id)) then
    ⟨HResp.badRequest, db, []⟩
  else if o.productsCheckFails then ⟨HResp.badRequest, db, []⟩
  else if !((req.order_items.filterMap (fun it => it.product_id)).all
      (fun i => db.products.any (fun p => p.id == i))) then
    ⟨HResp.badRequest, db, []⟩
  else
    let tr0 : List Step := [Step.validateProducts]
    let finalOrderNumber := finalOrderNumberOf req o day month year
    let finalTotal := calculatedTotalOf req
    if finalTotal < 0 then ⟨HResp.badRequest, db, tr0⟩
    else if finalTotal > 100000 then ⟨HResp.badRequest, db, tr0⟩
    else if o.orderInsertFails then ⟨HResp.serverError, db, tr0⟩
    else
      let db1 := insertOrderDb req orderId finalOrderNumber db
      let tr1 := tr0 ++ [Step.insertOrder]
      if o.itemsInsertFails then
        if o.orderDeleteFails then ⟨HResp.serverError, db1, tr1⟩
        else ⟨HResp.serverError, deleteOrderDb orderId db1, tr1 ++ [Step.deleteOrder]⟩
      else
        let db2 := insertItemsDb req orderId db1
        let tr2 := tr1 ++ [Step.insertItems]
        let db3 := stockDb req o db2
        let tr3 := tr2 ++ (if req.is_pre_order then [] else [Step.decrementStock])
        let db4 := txnDb req o orderId finalOrderNumber finalTotal db3
        let tr4 := tr3 ++ [Step.upsertTxn]
        let tr5 := tr4 ++
          (if (confirmationEmailOf req o).isSome then [Step.confirmationEmail] else [])
        let tr6 := tr5 ++ [Step.adminEmail]
        ⟨HResp.ok, notifyDb db4, tr6 ++ [Step.adminNotification]⟩

/-! Theorems settling the claims, with supporting lemmas and concrete
witness fixtures. -/

/-- Concrete product fixture. -/
def prodW : Product := ⟨"p1", "Phone", 5, true⟩

/-- Concrete order fixture. -/
def ordW : OrderRow :=
  ⟨1, "ORD-001111026", some "u1", "pending", "pending", false, false, none,
   10, 0, 0, 0, 10, none, none⟩

/-- Concrete order-item fixture. -/
def itemsW : List ItemRow := [⟨1, some "p1", 1, 10, 10⟩]

/-- C7: updatePaymentStatus rejects every payment_status outside pending,
paid, failed, refunded with a 400 response and leaves the order unchanged;
for a value in that whitelist it sets the payment_status of the order to
that value. -/
theorem updatePaymentStatus_spec (order : OrderRow) (v s : String) :
    updatePaymentStatus order none = (HResp.badRequest, order) ∧
    (v ∉ allowedPaymentStatuses →
      updatePaymentStatus order (some v) = (HResp.badRequest, order)) ∧
    (s ∈ allowedPaymentStatuses →
      updatePaymentStatus order (some s) =
        (HResp.ok, { order with payment_status := s })) := by
  refine ⟨?_, ?_, ?_⟩
  · simp [updatePaymentStatus, strFalsy]
  · intro hv
    by_cases hve : v = ""
    · subst hve; simp [updatePaymentStatus, strFalsy]
    · have : (v == "") = false := by simpa using hve
      simp [updatePaymentStatus, strFalsy, this, hv]
  · intro hs
    have hne : s ≠ "" := by
      intro h
      subst h
      simp [allowedPaymentStatuses] at hs
    have : (s == "") = false := by simpa using hne
    simp [updatePaymentStatus, strFalsy, this, hs]

/-- Witness for updatePaymentStatus_spec at a rejected and an accepted
concrete payment status. -/
theorem updatePaymentStatus_spec_witness :
    ("bogus" ∉ allowedPaymentStatuses ∧
      updatePaymentStatus ordW (some "bogus") = (HResp.badRequest, ordW)) ∧
    ("paid" ∈ allowedPaymentStatuses ∧
      updatePaymentStatus ordW (some "paid") =
        (HResp.ok, { ordW with payment_status := "paid" })) :=
  ⟨⟨by decide, (updatePaymentStatus_spec ordW "bogus" "paid").2.1 (by decide)⟩,
   ⟨by decide, (updatePaymentStatus_spec ordW "bogus" "paid").2.2 (by decide)⟩⟩

/-- Any three-digit match of the order-number pattern is at most 999. -/
theorem digitVal_le (d : Char) (hdig : d.isDigit = true) : digitVal d ≤ 9 := by
  have h9 : d.toNat ≤ 57 := by
    simp only [Char.isDigit, Bool.and_eq_true, decide_eq_true_eq] at hdig
    exact hdig.2
  simp only [digitVal]
  omega

theorem matchORDAt_le (l : List Char) (n : Nat) (h : matchORDAt l = some n) :
    n ≤ 999 := by
  unfold matchORDAt at h
  split at h
  · rename_i a b c _
    by_cases hd : (a.isDigit && b.isDigit && c.isDigit) = true
    · rw [if_pos hd] at h
      injection h with h
      simp only [Bool.and_eq_true] at hd
      have ha := digitVal_le a hd.1.1
      have hb := digitVal_le b hd.1.2
      have hc := digitVal_le c hd.2
      omega
    · rw [if_neg hd] at h
      simp at h
  · simp at h

/-- The leftmost regex match of the order-number pattern is at most 999. -/
theorem extractSeq_le (l : List Char) (n : Nat) (h : extractSeq l = some n) :
    n ≤ 999 := by
  induction l with
  | nil => simp [extractSeq] at h
  | cons c rest ih =>
    unfold extractSeq at h
    cases hm : matchORDAt (c :: rest) with
    | none => rw [hm] at h; exact ih h
    | some m =>
      rw [hm] at h
      injection h with h
      subst h
      exact matchORDAt_le _ _ hm

/-- C5: when no order_number is supplied, the generated order number is
ORD-SSSDDMMYY: DDMMYY is the current date and SSS is the zero-padded
sequence equal to one more than the sequence extracted from the most recent
order number of the day (1 when there is no order today, wrapping back to 1
when the sequence would exceed 999); the extracted sequence is always at
most 999, so the wrap keeps SSS in range. -/
theorem generateOrderNumber_spec (day month year : Nat) (s : String) (n : Nat) :
    generateOrderNumber day month year none =
      "ORD-" ++ pad3 1 ++ dateStrOf day month year ∧
    (extractSeq s.data = some n →
      generateOrderNumber day month year (some s) =
        "ORD-" ++ pad3 (if n + 1 > 999 then 1 else n + 1)
          ++ dateStrOf day month year ∧
      n ≤ 999) := by
  constructor
  · simp [generateOrderNumber, strFalsy]
  · intro h
    refine ⟨?_, extractSeq_le _ _ h⟩
    have hne : s ≠ "" := by
      intro he
      subst he
      have h0 : extractSeq ("" : String).data = none := rfl
      rw [h0] at h
      simp at h
    have hse : (s == "") = false := by
      rw [beq_eq_false_iff_ne]
      exact hne
    unfold generateOrderNumber
    simp only [strFalsy, Option.getD_some, hse, Bool.false_eq_true, if_false, h]

/-- Witness for generateOrderNumber_spec: a day with no prior order yields
sequence 001, and a day whose latest order is ORD-005111026 yields 006. -/
theorem generateOrderNumber_spec_witness :
    extractSeq ("ORD-005111026" : String).data = some 5 ∧
    generateOrderNumber 11 10 2026 (some "ORD-005111026") = "ORD-006111026" ∧
    generateOrderNumber 11 10 2026 none = "ORD-001111026" := by
  refine ⟨by decide, ?_, ?_⟩
  · rw [((generateOrderNumber_spec 11 10 2026 "ORD-005111026" 5).2 (by decide)).1]
    decide
  · rw [(generateOrderNumber_spec 11 10 2026 "x" 0).1]
    decide

/-- Concrete paid transaction fixture linked to order 1. -/
def txnPaidW : Txn :=
  ⟨5, some 1, none, "ref9", none, "paystack", "paystack", 10, "paid", "paid",
   some "c@x.y", "C", "ORD-9", []⟩

/-- Concrete transaction-controller database fixture. -/
def tdbW : TDB := ⟨[txnPaidW], [ordW]⟩

/-- C9 (amended): refundTransaction changes state only when the transaction
payment status is paid: otherwise it responds 400 (transaction not paid) or
500 (transaction missing, because the zero-row error of the .single() fetch
is rethrown and the explicit 404 branch is unreachable) and modifies
neither the transactions nor the orders table.  On success the transaction
status and payment_status become refunded, and the linked order
payment_status becomes refunded exactly when the linked order exists and
its status is cancelled or pending. -/
theorem refundTransaction_spec (db : TDB) (id : Nat) (txn : Txn) :
    ((refundTransaction db id).1 ≠ HResp.ok → (refundTransaction db id).2 = db) ∧
    (db.txns.find? (fun t => t.id == id) = none →
      (refundTransaction db id).1 = HResp.serverError) ∧
    (db.txns.find? (fun t => t.id == id) = some txn →
      txn.payment_status ≠ "paid" →
      (refundTransaction db id).1 = HResp.badRequest) ∧
    (db.txns.find? (fun t => t.id == id) = some txn →
      txn.payment_status = "paid" →
      (refundTransaction db id).1 = HResp.ok ∧
      (refundTransaction db id).2.txns = db.txns.map (fun t =>
        if t.id == id then
          { t with payment_status := "refunded", status := "refunded" }
        else t) ∧
      (txn.order_id = none → (refundTransaction db id).2.orders = db.orders) ∧
      (∀ oid ord, txn.order_id = some oid →
        db.orders.find? (fun o => o.id == oid) = some ord →
        ((ord.status = "cancelled" ∨ ord.status = "pending") →
          (refundTransaction db id).2.orders = db.orders.map (fun o =>
            if o.id == oid then { o with payment_status := "refunded" } else o)) ∧
        (ord.status ≠ "cancelled" → ord.status ≠ "pending" →
          (refundTransaction db id).2.orders = db.orders))) := by
  cases hf : db.txns.find? (fun t => t.id == id) with
  | none =>
    refine ⟨?_, ?_, ?_, ?_⟩
    · intro _
      simp [refundTransaction, hf]
    · intro _
      simp [refundTransaction, hf]
    · intro h
      exact absurd h (by simp)
    · intro h
      exact absurd h (by simp)
  | some t =>
    by_cases hp : t.payment_status = "paid"
    · have hpb : (t.payment_status == "paid") = true := by simpa using hp
      refine ⟨?_, ?_, ?_, ?_⟩
      · intro hne
        exact absurd (by simp [refundTransaction, hf, hpb]) hne
      · intro h
        exact absurd h (by simp)
      · intro h hps
        have ht : t = txn := Option.some.inj h
        exact absurd (ht ▸ hp) hps
      · intro h hps
        have ht : t = txn := Option.some.inj h
        subst ht
        refine ⟨by simp [refundTransaction, hf, hpb],
          by simp [refundTransaction, hf, hpb], ?_, ?_⟩
        · intro hoid
          simp [refundTransaction, hf, hpb, hoid]
        · intro oid ord hoid hord
          constructor
          · intro hst
            have hstb : (ord.status == "cancelled" || ord.status == "pending") = true := by
              rcases hst with h1 | h1 <;> simp [h1]
            simp [refundTransaction, hf, hpb, hoid, hord, hstb]
          · intro h1 h2
            have hstb : (ord.status == "cancelled" || ord.status == "pending") = false := by
              simp [h1, h2]
            simp [refundTransaction, hf, hpb, hoid, hord, hstb]
    · have hpb : (t.payment_status == "paid") = false := by simpa using hp
      refine ⟨?_, ?_, ?_, ?_⟩
      · intro _
        simp [refundTransaction, hf, hpb]
      · intro h
        exact absurd h (by simp)
      · intro _ _
        simp [refundTransaction, hf, hpb]
      · intro h hps
        have ht : t = txn := Option.some.inj h
        exact absurd (ht.symm ▸ hps) hp

/-- Witness for refundTransaction_spec: refunding a concrete paid
transaction linked to a pending order refunds both records. -/
theorem refundTransaction_spec_witness :
    (refundTransaction tdbW 5).1 = HResp.ok ∧
    (refundTransaction tdbW 5).2.txns =
      [{ txnPaidW with payment_status := "refunded", status := "refunded" }] ∧
    (refundTransaction tdbW 5).2.orders =
      [{ ordW with payment_status := "refunded" }] := by
  have h := (refundTransaction_spec tdbW 5 txnPaidW).2.2.2 (by decide) rfl
  refine ⟨h.1, ?_, ?_⟩
  · rw [h.2.1]
    decide
  · rw [(h.2.2.2 1 ordW rfl (by decide)).1 (Or.inr rfl)]
    decide

/-- C9: falsified as stated for the missing-transaction case.  Refunding a
transaction id absent from the table answers 500, not 400 or 404: the
zero-row error of the .single() fetch is rethrown and the catch block
responds 500, so the 404 branch of the source never fires.  The state is
still unmodified. -/
theorem refundTransaction_missing_is_500 :
    (refundTransaction ⟨[], [ordW]⟩ 5).1 = HResp.serverError ∧
    (refundTransaction ⟨[], [ordW]⟩ 5).1 ≠ HResp.badRequest ∧
    (refundTransaction ⟨[], [ordW]⟩ 5).1 ≠ HResp.notFound ∧
    (refundTransaction ⟨[], [ordW]⟩ 5).2 = ⟨[], [ordW]⟩ := by decide

/-- Concrete createOrder request fixture: one item, guest checkout with a
customer bio, cash on delivery. -/
def reqW : CreateOrderReq :=
  { user_id := none
    order_number := none
    subtotal := some 10
    discount := none
    tax := none
    delivery_fee := none
    total := some 10
    payment_method := some "cash_on_delivery"
    delivery_address := some ⟨some "g@x.y", some "Guest G", none⟩
    customer_bio := some ⟨some "G", some "g@x.y"⟩
    order_items := [⟨some "p1", "Phone", none, 1, 10, some 10, none⟩]
    notes := none
    payment_reference := none
    is_pre_order := false
    pre_order_shipping_option := none
    estimated_arrival_date := none
    coupon_id := none }

/-- Oracle fixture with no injected failures. -/
def oracleW : Oracle := ⟨false, none, false, false, false, false, none⟩

/-- Database fixture holding the one product of reqW. -/
def dbW : DB := ⟨[], [], [prodW], [], 0⟩

/-- Base transaction fixture as built by createOrder for reqW. -/
def baseTxnW : Txn := mkTransactionData reqW oracleW 9 "ORD-NEW" 10

/-- Transaction fixture whose transaction_reference is ref1 but whose
paystack_reference is unset, as a payment webhook that fills only the
former would create. -/
def txnRefOnlyW : Txn :=
  ⟨7, none, none, "ref1", none, "paystack", "paystack", 10, "paid", "paid",
   some "w@x.y", "W", "ORD-OLD", []⟩

/-- Transaction fixture carrying the reference ref2 in both columns. -/
def txnBothW : Txn :=
  ⟨8, none, none, "ref2", some "ref2", "paystack", "paystack", 10, "paid", "paid",
   some "w@x.y", "W", "ORD-OLD", []⟩

/-- C6: falsified as stated.  A transaction whose transaction_reference
equals the supplied payment reference but whose paystack_reference does not
is missed by the conjunctive lookup, so although a transaction with that
reference exists, a second row carrying the same reference is inserted
instead of an in-place update. -/
theorem upsertTransaction_duplicate_insert :
    txnRefOnlyW.transaction_reference = "ref1" ∧
    (upsertTransaction [txnRefOnlyW] (some "ref1") 9 none none "N" "ORD-NEW"
      baseTxnW).length = 2 := by decide

/-- C6 (amended): the lookup combines the transaction_reference filter and
the paystack_reference filter conjunctively.  When an existing transaction
matches both, it is updated in place with the order id, user id, customer
email and merged metadata and the table length is unchanged; when no
transaction matches both, a new row built from the base record is appended
with the reference stored in paystack_reference. -/
theorem upsertTransaction_links_by_reference (txns : List Txn) (ref : String)
    (orderId : Nat) (userId : Option String) (customerEmail : Option String)
    (customerName orderNumber : String) (base : Txn) (ex : Txn) :
    ref ≠ "" →
    (txns.find? (txnMatchesRef ref) = some ex →
      upsertTransaction txns (some ref) orderId userId customerEmail
          customerName orderNumber base =
        txns.map (fun t =>
          if t.id == ex.id then
            { t with
              order_id := some orderId
              user_id := userId
              customer_email := customerEmail
              meta_customer_name := customerName
              meta_order_number := orderNumber }
          else t) ∧
      (upsertTransaction txns (some ref) orderId userId customerEmail
          customerName orderNumber base).length = txns.length) ∧
    (txns.find? (txnMatchesRef ref) = none →
      upsertTransaction txns (some ref) orderId userId customerEmail
          customerName orderNumber base =
        txns ++ [{ base with paystack_reference := some ref }]) := by
  intro href
  have hrb : (ref == "") = false := by simpa using href
  constructor
  · intro hf
    unfold upsertTransaction
    simp [strFalsy, hrb, hf]
  · intro hf
    unfold upsertTransaction
    simp [strFalsy, hrb, hf]

/-- Witness for upsertTransaction_links_by_reference: linking a concrete
transaction that carries ref2 in both columns updates it in place. -/
theorem upsertTransaction_links_by_reference_witness :
    ([txnBothW].find? (txnMatchesRef "ref2") = some txnBothW) ∧
    upsertTransaction [txnBothW] (some "ref2") 9 none (some "c@x.y") "N"
        "ORD-NEW" baseTxnW =
      [{ txnBothW with
          order_id := some 9
          user_id := none
          customer_email := some "c@x.y"
          meta_customer_name := "N"
          meta_order_number := "ORD-NEW" }] := by
  have h := (upsertTransaction_links_by_reference [txnBothW] "ref2" 9 none
    (some "c@x.y") "N" "ORD-NEW" baseTxnW txnBothW (by decide)).1 (by decide)
  refine ⟨by decide, ?_⟩
  rw [h.1]
  decide

/-- Membership after an update-by-id write to the products table: every row
is either untouched or carries exactly the written stock and flag pair. -/
theorem mem_update_write {ps : List Product} {pid : String} {q : Int}
    {b : Bool} {p' : Product}
    (hp' : p' ∈ ps.map (fun p =>
      if p.id == pid then { p with stock_quantity := q, in_stock := b } else p)) :
    p' ∈ ps ∨ (p'.stock_quantity = q ∧ p'.in_stock = b) := by
  rcases List.mem_map.mp hp' with ⟨p, hp, he⟩
  by_cases h : (p.id == pid) = true
  · rw [if_pos h] at he
    right
    rw [← he]
    exact ⟨rfl, rfl⟩
  · rw [if_neg h] at he
    left
    rw [← he]
    exact hp

/-- Every product row written by a single stock restoration satisfies the
in_stock invariant, and unwritten rows are unchanged. -/
theorem restoreItemStock_mem (ps : List Product) (item : ItemRow) :
    ∀ p' ∈ restoreItemStock ps item,
      p' ∈ ps ∨ p'.in_stock = decide (p'.stock_quantity > 0) := by
  intro p' hp'
  unfold restoreItemStock at hp'
  split at hp'
  · exact Or.inl hp'
  · split at hp'
    · exact Or.inl hp'
    · split at hp'
      · exact Or.inl hp'
      · rcases mem_update_write hp' with h | ⟨h1, h2⟩
        · exact Or.inl h
        · right
          rw [h2, h1]

/-- Every product row written by the restoration loop satisfies the in_stock
invariant, and unwritten rows are unchanged. -/
theorem restoreStock_mem (items : List ItemRow) (ps : List Product) :
    ∀ p' ∈ restoreStock items ps,
      p' ∈ ps ∨ p'.in_stock = decide (p'.stock_quantity > 0) := by
  induction items generalizing ps with
  | nil => exact fun p' hp' => Or.inl hp'
  | cons item rest ih =>
    intro p' hp'
    have hstep : restoreStock (item :: rest) ps =
        restoreStock rest (restoreItemStock ps item) := rfl
    rw [hstep] at hp'
    rcases ih (restoreItemStock ps item) p' hp' with h | h
    · exact restoreItemStock_mem ps item p' h
    · exact Or.inr h

/-- Every product row written by the fallback decrement of one item
satisfies the in_stock invariant, and unwritten rows are unchanged. -/
theorem decrementItemStock_mem (ps : List Product) (item : OrderItemReq) :
    ∀ p' ∈ (decrementItemStock ps item).1,
      p' ∈ ps ∨ p'.in_stock = decide (p'.stock_quantity > 0) := by
  intro p' hp'
  unfold decrementItemStock at hp'
  split at hp'
  · exact Or.inl hp'
  · split at hp'
    · exact Or.inl hp'
    · dsimp only at hp'
      split at hp'
      · dsimp only at hp'
        rcases mem_update_write hp' with h | ⟨h1, h2⟩
        · exact Or.inl h
        · right
          rw [h2, h1]
      · exact Or.inl hp'

/-- C10: every product row written by the fallback stock decrement of
createOrder, by the stock restoration of updateOrderStatus, or by the stock
restoration of cancelOrder has in_stock equal to whether the newly written
stock_quantity is positive; rows the handlers do not touch are unchanged. -/
theorem stock_write_in_stock_invariant :
    (∀ (items : List OrderItemReq) (db : DB),
      ∀ p' ∈ (stockPhaseFallback items db).products,
        p' ∈ db.products ∨ p'.in_stock = decide (p'.stock_quantity > 0)) ∧
    (∀ (order : OrderRow) (orderItems : List ItemRow) (products : List Product)
        (status : String) (tracking notes : Option String),
      ∀ p' ∈ (updateOrderStatus order orderItems products status tracking notes).products,
        p' ∈ products ∨ p'.in_stock = decide (p'.stock_quantity > 0)) ∧
    (∀ (order : OrderRow) (orderItems : List ItemRow) (products : List Product)
        (reason email : Option String),
      ∀ p' ∈ (cancelOrder order orderItems products reason email).products,
        p' ∈ products ∨ p'.in_stock = decide (p'.stock_quantity > 0)) := by
  refine ⟨?_, ?_, ?_⟩
  · intro items
    induction items with
    | nil => exact fun db p' hp' => Or.inl hp'
    | cons item rest ih =>
      intro db p' hp'
      have hstep : stockPhaseFallback (item :: rest) db =
          stockPhaseFallback rest
            { db with
              products := (decrementItemStock db.products item).1
              notifications := db.notifications +
                (if (decrementItemStock db.products item).2 then 1 else 0) } := rfl
      rw [hstep] at hp'
      rcases ih _ p' hp' with h | h
      · exact decrementItemStock_mem db.products item p' h
      · exact Or.inr h
  · intro order orderItems products status tracking notes p' hp'
    unfold updateOrderStatus at hp'
    dsimp only at hp'
    split at hp'
    · exact restoreStock_mem orderItems products p' hp'
    · exact Or.inl hp'
  · intro order orderItems products reason email p' hp'
    unfold cancelOrder at hp'
    split at hp'
    · split at hp'
      · exact Or.inl hp'
      · unfold cancelProceed at hp'
        dsimp only at hp'
        split at hp'
        · exact restoreStock_mem orderItems products p' hp'
        · exact Or.inl hp'
    · split at hp'
      · exact Or.inl hp'
      · unfold cancelProceed at hp'
        dsimp only at hp'
        split at hp'
        · exact restoreStock_mem orderItems products p' hp'
        · exact Or.inl hp'

/-- Witness for stock_write_in_stock_invariant on the concrete fallback
decrement of reqW against dbW: the written row has stock 4 and in_stock
true. -/
theorem stock_write_in_stock_invariant_witness :
    (⟨"p1", "Phone", 4, true⟩ : Product) ∈
      (stockPhaseFallback reqW.order_items dbW).products ∧
    ((⟨"p1", "Phone", 4, true⟩ : Product) ∈ dbW.products ∨
      (⟨"p1", "Phone", 4, true⟩ : Product).in_stock =
        decide ((⟨"p1", "Phone", 4, true⟩ : Product).stock_quantity > 0)) :=
  ⟨by decide,
   stock_write_in_stock_invariant.1 reqW.order_items dbW
     ⟨"p1", "Phone", 4, true⟩ (by decide)⟩

/-- Pre-order fixture whose flag lives only in the shipping_address JSON,
exactly as createOrder stores it (the is_pre_order column is not part of
the insert). -/
def ordPreW : OrderRow :=
  ⟨2, "ORD-002111026", some "u1", "pending", "pending", false, true, none,
   20, 0, 0, 0, 20, none, none⟩

/-- Line items of the pre-order fixture. -/
def itemsPreW : List ItemRow := [⟨2, some "p1", 2, 10, 20⟩]

/-- C3: falsified by cancelOrder.  For a pre-order whose flag is stored only
inside the shipping_address JSON (which is where createOrder puts it, since
the insert carries no is_pre_order column), cancelOrder consults only the
is_pre_order column, so it restores stock that was never decremented: the
product stock rises from 5 to 7. -/
theorem cancelOrder_restores_stock_for_json_preorder :
    ordPreW.ship_is_pre_order = true ∧
    ordPreW.status = "pending" ∧
    (cancelOrder ordPreW itemsPreW [prodW] none none).restored = true ∧
    (cancelOrder ordPreW itemsPreW [prodW] none none).products =
      [⟨"p1", "Phone", 7, true⟩] ∧
    (updateOrderStatus ordPreW itemsPreW [prodW] "cancelled" none none).restored
      = false := by decide

/-- Whether an admin operation targets the cancelled status: every
cancelOrder call does, and an updateOrderStatus call does when its status
argument is cancelled. -/
def targetsCancelled : AdminOp → Bool
  | .cancel _ _ => true
  | .setStatus status _ _ => status == "cancelled"

/-- cancelOrder either rejects the request unchanged or proceeds with the
shared cancellation tail. -/
theorem cancelOrder_cases (order : OrderRow) (items : List ItemRow)
    (products : List Product) (r e : Option String) :
    cancelOrder order items products r e =
        ⟨HResp.forbidden, order, products, false⟩ ∨
    cancelOrder order items products r e =
        ⟨HResp.badRequest, order, products, false⟩ ∨
    cancelOrder order items products r e = cancelProceed order items products r := by
  unfold cancelOrder
  split
  · split
    · exact Or.inl rfl
    · exact Or.inr (Or.inr rfl)
  · split
    · exact Or.inr (Or.inl rfl)
    · exact Or.inr (Or.inr rfl)

/-- Resulting status and restoration flag of the cancellation tail. -/
theorem cancelProceed_spec (order : OrderRow) (items : List ItemRow)
    (products : List Product) (r : Option String) :
    (cancelProceed order items products r).order.status = "cancelled" ∧
    (cancelProceed order items products r).restored =
      (!(order.status == "cancelled") && !order.is_pre_order) :=
  ⟨rfl, rfl⟩

/-- Resulting status and restoration flag of updateOrderStatus. -/
theorem updateOrderStatus_spec (order : OrderRow) (items : List ItemRow)
    (products : List Product) (st : String) (t n : Option String) :
    (updateOrderStatus order items products st t n).order.status = st ∧
    (updateOrderStatus order items products st t n).restored =
      ((st == "cancelled") && !(order.status == "cancelled")
        && !(order.is_pre_order || order.ship_is_pre_order)
        && !(order.payment_status == "refunded")) :=
  ⟨rfl, rfl⟩

/-- Stock restoration only ever runs from a status other than cancelled. -/
theorem applyOp_restored_prev (s : OrderState) (op : AdminOp)
    (hr : (applyOp s op).2 = true) : s.order.status ≠ "cancelled" := by
  cases op with
  | cancel r e =>
    have h2 : (applyOp s (AdminOp.cancel r e)).2 =
        (cancelOrder s.order s.orderItems s.products r e).restored := rfl
    rw [h2] at hr
    rcases cancelOrder_cases s.order s.orderItems s.products r e with h | h | h <;>
      rw [h] at hr
    · simp at hr
    · simp at hr
    · rw [(cancelProceed_spec s.order s.orderItems s.products r).2] at hr
      simp at hr
      exact hr.1
  | setStatus st t n =>
    have h2 : (applyOp s (AdminOp.setStatus st t n)).2 =
        (updateOrderStatus s.order s.orderItems s.products st t n).restored := rfl
    rw [h2] at hr
    rw [(updateOrderStatus_spec s.order s.orderItems s.products st t n).2] at hr
    simp at hr
    exact hr.1.1.2

/-- After an operation that targets the cancelled status performed a
restoration, the order status is cancelled. -/
theorem restored_imp_cancelled (s : OrderState) (op : AdminOp)
    (ht : targetsCancelled op = true) (hr : (applyOp s op).2 = true) :
    (applyOp s op).1.order.status = "cancelled" := by
  cases op with
  | cancel r e =>
    have h1 : (applyOp s (AdminOp.cancel r e)).1.order =
        (cancelOrder s.order s.orderItems s.products r e).order := rfl
    have h2 : (applyOp s (AdminOp.cancel r e)).2 =
        (cancelOrder s.order s.orderItems s.products r e).restored := rfl
    rw [h2] at hr
    rw [h1]
    rcases cancelOrder_cases s.order s.orderItems s.products r e with h | h | h <;>
      rw [h] at hr ⊢
    · simp at hr
    · simp at hr
    · exact (cancelProceed_spec s.order s.orderItems s.products r).1
  | setStatus st t n =>
    have h1 : (applyOp s (AdminOp.setStatus st t n)).1.order =
        (updateOrderStatus s.order s.orderItems s.products st t n).order := rfl
    have hst : st = "cancelled" := by simpa [targetsCancelled] using ht
    rw [h1, (updateOrderStatus_spec s.order s.orderItems s.products st t n).1]
    exact hst

/-- A cancelled order stays cancelled and restores nothing under operations
that target the cancelled status. -/
theorem targets_cancel_stable (s : OrderState) (op : AdminOp)
    (ht : targetsCancelled op = true) (hc : s.order.status = "cancelled") :
    (applyOp s op).2 = false ∧ (applyOp s op).1.order.status = "cancelled" := by
  cases op with
  | cancel r e =>
    have h1 : (applyOp s (AdminOp.cancel r e)).1.order =
        (cancelOrder s.order s.orderItems s.products r e).order := rfl
    have h2 : (applyOp s (AdminOp.cancel r e)).2 =
        (cancelOrder s.order s.orderItems s.products r e).restored := rfl
    rw [h1, h2]
    rcases cancelOrder_cases s.order s.orderItems s.products r e with h | h | h <;>
      rw [h]
    · exact ⟨rfl, hc⟩
    · exact ⟨rfl, hc⟩
    · refine ⟨?_, (cancelProceed_spec s.order s.orderItems s.products r).1⟩
      rw [(cancelProceed_spec s.order s.orderItems s.products r).2, hc]
      simp
  | setStatus st t n =>
    have h1 : (applyOp s (AdminOp.setStatus st t n)).1.order =
        (updateOrderStatus s.order s.orderItems s.products st t n).order := rfl
    have h2 : (applyOp s (AdminOp.setStatus st t n)).2 =
        (updateOrderStatus s.order s.orderItems s.products st t n).restored := rfl
    have hst : st = "cancelled" := by simpa [targetsCancelled] using ht
    rw [h1, h2, (updateOrderStatus_spec s.order s.orderItems s.products st t n).2,
      (updateOrderStatus_spec s.order s.orderItems s.products st t n).1, hc]
    simp [hst]

/-- From a cancelled order, operations targeting the cancelled status never
restore stock. -/
theorem runOps_cancelled_zero (ops : List AdminOp) :
    ∀ s : OrderState, s.order.status = "cancelled" →
    (∀ o ∈ ops, targetsCancelled o = true) → (runOps s ops).2 = 0 := by
  induction ops with
  | nil => intro s _ _; rfl
  | cons op rest ih =>
    intro s hc hall
    have hA := targets_cancel_stable s op (hall op (by simp)) hc
    have hstep : (runOps s (op :: rest)).2 =
        (if (applyOp s op).2 then 1 else 0) + (runOps (applyOp s op).1 rest).2 := rfl
    rw [hstep, hA.1]
    simpa using ih (applyOp s op).1 hA.2 (fun o ho => hall o (by simp [ho]))

/-- C2 (amended): a transition to cancelled restores stock only if the order
status immediately before the transition was not cancelled; consequently,
across any sequence of cancelOrder and updateOrderStatus calls in which
every updateOrderStatus targets the cancelled status, restoration runs at
most once.  (If an updateOrderStatus call moves a cancelled order back to a
non-cancelled status, a later cancellation restores stock again, so the
unrestricted claim fails.) -/
theorem stock_restoration_at_most_once (s : OrderState) (ops : List AdminOp)
    (op : AdminOp) :
    ((applyOp s op).2 = true → s.order.status ≠ "cancelled") ∧
    ((∀ o ∈ ops, targetsCancelled o = true) → (runOps s ops).2 ≤ 1) := by
  constructor
  · exact applyOp_restored_prev s op
  · induction ops generalizing s with
    | nil =>
      intro _
      simp [runOps]
    | cons op0 rest ih =>
      intro hall
      have hstep : (runOps s (op0 :: rest)).2 =
          (if (applyOp s op0).2 then 1 else 0) + (runOps (applyOp s op0).1 rest).2 := rfl
      rw [hstep]
      by_cases hr : (applyOp s op0).2 = true
      · rw [if_pos hr]
        have hc := restored_imp_cancelled s op0 (hall op0 (by simp)) hr
        have h0 := runOps_cancelled_zero rest (applyOp s op0).1 hc
          (fun o ho => hall o (by simp [ho]))
        omega
      · rw [if_neg hr]
        have := ih (applyOp s op0).1 (fun o ho => hall o (by simp [ho]))
        omega

/-- Sequence that cancels, un-cancels and cancels again. -/
def opsCexW : List AdminOp :=
  [AdminOp.setStatus "cancelled" none none,
   AdminOp.setStatus "processing" none none,
   AdminOp.setStatus "cancelled" none none]

/-- C2: falsified as stated.  Cancelling, moving the order back to
processing, and cancelling again restores the single item stock twice: the
product stock rises from 5 to 7. -/
theorem restore_twice_after_uncancel :
    (runOps ⟨ordW, itemsW, [prodW]⟩ opsCexW).2 = 2 ∧
    (runOps ⟨ordW, itemsW, [prodW]⟩ opsCexW).1.products =
      [⟨"p1", "Phone", 7, true⟩] := by decide

/-- Sequence of a cancellation followed by a redundant cancelled update. -/
def opsSeqW : List AdminOp :=
  [AdminOp.cancel none none, AdminOp.setStatus "cancelled" none none]

/-- Witness for stock_restoration_at_most_once on a concrete order and a
concrete cancel-then-cancel sequence. -/
theorem stock_restoration_at_most_once_witness :
    ((applyOp ⟨ordW, itemsW, [prodW]⟩ (AdminOp.cancel none none)).2 = true ∧
      ordW.status ≠ "cancelled") ∧
    ((∀ o ∈ opsSeqW, targetsCancelled o = true) ∧
      (runOps ⟨ordW, itemsW, [prodW]⟩ opsSeqW).2 ≤ 1) :=
  ⟨⟨by decide,
    (stock_restoration_at_most_once ⟨ordW, itemsW, [prodW]⟩ opsSeqW
      (AdminOp.cancel none none)).1 (by decide)⟩,
   ⟨by decide,
    (stock_restoration_at_most_once ⟨ordW, itemsW, [prodW]⟩ opsSeqW
      (AdminOp.cancel none none)).2 (by decide)⟩⟩

/-- The stock loop never touches the orders table. -/
theorem stockPhaseFallback_orders (items : List OrderItemReq) (db : DB) :
    (stockPhaseFallback items db).orders = db.orders := by
  induction items generalizing db with
  | nil => rfl
  | cons item rest ih => exact ih _

/-- The stock phase never touches the orders table. -/
theorem applyStockPhase_orders (b : Bool) (items : List OrderItemReq) (db : DB) :
    (applyStockPhase b items db).orders = db.orders := by
  unfold applyStockPhase
  split
  · rfl
  · exact stockPhaseFallback_orders items db

/-- The stockDb phase never touches the orders table. -/
theorem stockDb_orders (req : CreateOrderReq) (o : Oracle) (db : DB) :
    (stockDb req o db).orders = db.orders := by
  unfold stockDb
  split
  · rfl
  · exact applyStockPhase_orders o.rpcAvailable req.order_items db

/-- Case analysis of createOrder: every run either rejects with 400 leaving
the database untouched, or passes the total guards and then either fails the
order insert (database untouched), fails the items insert (with or without a
successful compensating delete), or succeeds with the phased database
updates and the full step trace. -/
theorem createOrder_cases (req : CreateOrderReq) (db : DB) (o : Oracle)
    (orderId day month year : Nat) :
    ((createOrder req db o orderId day month year).resp = HResp.badRequest ∧
      (createOrder req db o orderId day month year).db = db) ∨
    (¬(calculatedTotalOf req < 0) ∧ ¬(calculatedTotalOf req > 100000) ∧
      (createOrder req db o orderId day month year =
          ⟨HResp.serverError, db, [Step.validateProducts]⟩ ∨
       (o.itemsInsertFails = true ∧ o.orderDeleteFails = true ∧
        createOrder req db o orderId day month year =
          ⟨HResp.serverError,
           insertOrderDb req orderId (finalOrderNumberOf req o day month year) db,
           [Step.validateProducts, Step.insertOrder]⟩) ∨
       (o.itemsInsertFails = true ∧ o.orderDeleteFails = false ∧
        createOrder req db o orderId day month year =
          ⟨HResp.serverError,
           deleteOrderDb orderId
             (insertOrderDb req orderId (finalOrderNumberOf req o day month year) db),
           [Step.validateProducts, Step.insertOrder, Step.deleteOrder]⟩) ∨
       (o.itemsInsertFails = false ∧
        createOrder req db o orderId day month year =
          ⟨HResp.ok,
           notifyDb (txnDb req o orderId (finalOrderNumberOf req o day month year)
             (calculatedTotalOf req)
             (stockDb req o (insertItemsDb req orderId
               (insertOrderDb req orderId (finalOrderNumberOf req o day month year) db)))),
           [Step.validateProducts, Step.insertOrder, Step.insertItems]
             ++ (if req.is_pre_order then [] else [Step.decrementStock])
             ++ [Step.upsertTxn]
             ++ (if (confirmationEmailOf req o).isSome then [Step.confirmationEmail]
                 else [])
             ++ [Step.adminEmail, Step.adminNotification]⟩))) := by
  by_cases c1 : req.order_items.isEmpty = true
  · refine Or.inl ?_
    unfold createOrder
    rw [if_pos c1]
    exact ⟨rfl, rfl⟩
  by_cases c2 : req.delivery_address.isNone = true
  · refine Or.inl ?_
    unfold createOrder
    rw [if_neg c1, if_pos c2]
    exact ⟨rfl, rfl⟩
  by_cases c3 : (req.total.isNone || decide (req.total.getD 0 ≤ 0)) = true
  · refine Or.inl ?_
    unfold createOrder
    rw [if_neg c1, if_neg c2, if_pos c3]
    exact ⟨rfl, rfl⟩
  by_cases c4 : (!req.order_items.all fun it => validId it.product_id) = true
  · refine Or.inl ?_
    unfold createOrder
    rw [if_neg c1, if_neg c2, if_neg c3, if_pos c4]
    exact ⟨rfl, rfl⟩
  by_cases c5 : o.productsCheckFails = true
  · refine Or.inl ?_
    unfold createOrder
    rw [if_neg c1, if_neg c2, if_neg c3, if_neg c4, if_pos c5]
    exact ⟨rfl, rfl⟩
  by_cases c6 : (!(req.order_items.filterMap fun it => it.product_id).all
      fun i => db.products.any fun p => p.id == i) = true
  · refine Or.inl ?_
    unfold createOrder
    rw [if_neg c1, if_neg c2, if_neg c3, if_neg c4, if_neg c5, if_pos c6]
    exact ⟨rfl, rfl⟩
  by_cases c7 : calculatedTotalOf req < 0
  · refine Or.inl ?_
    unfold createOrder
    dsimp only
    rw [if_neg c1, if_neg c2, if_neg c3, if_neg c4, if_neg c5, if_neg c6,
      if_pos c7]
    exact ⟨rfl, rfl⟩
  by_cases c8 : calculatedTotalOf req > 100000
  · refine Or.inl ?_
    unfold createOrder
    dsimp only
    rw [if_neg c1, if_neg c2, if_neg c3, if_neg c4, if_neg c5, if_neg c6,
      if_neg c7, if_pos c8]
    exact ⟨rfl, rfl⟩
  refine Or.inr ⟨c7, c8, ?_⟩
  by_cases c9 : o.orderInsertFails = true
  · refine Or.inl ?_
    unfold createOrder
    dsimp only
    rw [if_neg c1, if_neg c2, if_neg c3, if_neg c4, if_neg c5, if_neg c6,
      if_neg c7, if_neg c8, if_pos c9]
  by_cases c10 : o.itemsInsertFails = true
  · by_cases c11 : o.orderDeleteFails = true
    · refine Or.inr (Or.inl ⟨c10, c11, ?_⟩)
      unfold createOrder
      dsimp only
      rw [if_neg c1, if_neg c2, if_neg c3, if_neg c4, if_neg c5, if_neg c6,
        if_neg c7, if_neg c8, if_neg c9, if_pos c10, if_pos c11]
      rfl
    · have c11f : o.orderDeleteFails = false := by simpa using c11
      refine Or.inr (Or.inr (Or.inl ⟨c10, c11f, ?_⟩))
      unfold createOrder
      dsimp only
      rw [if_neg c1, if_neg c2, if_neg c3, if_neg c4, if_neg c5, if_neg c6,
        if_neg c7, if_neg c8, if_neg c9, if_pos c10, if_neg c11]
      rfl
  · have c10f : o.itemsInsertFails = false := by simpa using c10
    refine Or.inr (Or.inr (Or.inr ⟨c10f, ?_⟩))
    unfold createOrder
    dsimp only
    rw [if_neg c1, if_neg c2, if_neg c3, if_neg c4, if_neg c5, if_neg c6,
      if_neg c7, if_neg c8, if_neg c9, if_neg c10]
    simp

/-- C1: when createOrder succeeds, its side-effect steps are attempted in
the order: validate products, insert the order row, insert the order_items
rows, decrement stock (skipped for pre-orders), create or link the
payment-transaction record, send the confirmation email (attempted when a
customer email is known) and the admin email, and create the admin
notification; the trace equality forces each later step to run only after
the earlier ones. -/
theorem createOrder_effect_order (req : CreateOrderReq) (db : DB) (o : Oracle)
    (orderId day month year : Nat) :
    (createOrder req db o orderId day month year).resp = HResp.ok →
    (createOrder req db o orderId day month year).trace =
      [Step.validateProducts, Step.insertOrder, Step.insertItems]
        ++ (if req.is_pre_order then [] else [Step.decrementStock])
        ++ [Step.upsertTxn]
        ++ (if (confirmationEmailOf req o).isSome then [Step.confirmationEmail]
            else [])
        ++ [Step.adminEmail, Step.adminNotification] := by
  intro h
  rcases createOrder_cases req db o orderId day month year with
    ⟨hr, _⟩ | ⟨_, _, hc | ⟨_, _, hc⟩ | ⟨_, _, hc⟩ | ⟨_, hc⟩⟩
  · rw [hr] at h
    exact absurd h (by simp)
  · rw [hc] at h
    exact absurd h (by simp)
  · rw [hc] at h
    exact absurd h (by simp)
  · rw [hc] at h
    exact absurd h (by simp)
  · rw [hc]

/-- Witness for createOrder_effect_order at the concrete request reqW. -/
theorem createOrder_effect_order_witness :
    (createOrder reqW dbW oracleW 1 11 10 2026).resp = HResp.ok ∧
    (createOrder reqW dbW oracleW 1 11 10 2026).trace =
      [Step.validateProducts, Step.insertOrder, Step.insertItems]
        ++ (if reqW.is_pre_order then [] else [Step.decrementStock])
        ++ [Step.upsertTxn]
        ++ (if (confirmationEmailOf reqW oracleW).isSome then
              [Step.confirmationEmail]
            else [])
        ++ [Step.adminEmail, Step.adminNotification] :=
  ⟨by decide, createOrder_effect_order reqW dbW oracleW 1 11 10 2026 (by decide)⟩

/-- Oracle fixture where the order_items insert fails twice over: also the
compensating delete of the order row fails. -/
def oracleBothFailW : Oracle := ⟨false, none, false, true, true, false, none⟩

/-- Oracle fixture where the order_items insert fails but the compensating
delete succeeds. -/
def oracleItemsFailW : Oracle := ⟨false, none, false, true, false, false, none⟩

/-- C4: falsified as stated.  When the order_items insert fails and the
compensating delete of the order row itself fails, the request fails but
the orphaned order row stays behind with no line items. -/
theorem orphan_order_left_behind :
    (createOrder reqW dbW oracleBothFailW 1 11 10 2026).resp = HResp.serverError ∧
    ((createOrder reqW dbW oracleBothFailW 1 11 10 2026).db.orders.map
      (fun r => r.id)) = [1] ∧
    (createOrder reqW dbW oracleBothFailW 1 11 10 2026).db.items = [] := by
  decide

/-- C4 (amended): when the order_items insert fails, createOrder attempts to
delete the just-inserted order row and fails the request; provided the
compensating delete succeeds (and the new order id is fresh), no order row
and no order_items row is left behind.  When the delete itself fails, the
orphaned order row remains. -/
theorem itemsFail_compensation (req : CreateOrderReq) (db : DB) (o : Oracle)
    (orderId day month year : Nat) :
    o.itemsInsertFails = true → o.orderDeleteFails = false →
    (∀ r ∈ db.orders, r.id ≠ orderId) →
    (createOrder req db o orderId day month year).resp ≠ HResp.ok ∧
    (createOrder req db o orderId day month year).db.orders = db.orders ∧
    (createOrder req db o orderId day month year).db.items = db.items := by
  intro hif hdf hfresh
  have h1 : db.orders.filter (fun r => !(r.id == orderId)) = db.orders :=
    List.filter_eq_self.mpr (fun a ha => by simpa using hfresh a ha)
  have h2 : [mkOrderRow req orderId (finalOrderNumberOf req o day month year)].filter
      (fun r => !(r.id == orderId)) = [] := by
    simp [mkOrderRow]
  rcases createOrder_cases req db o orderId day month year with
    ⟨hr, hdb⟩ | ⟨_, _, hc | ⟨_, h11, hc⟩ | ⟨_, _, hc⟩ | ⟨h10, hc⟩⟩
  · refine ⟨?_, ?_, ?_⟩
    · rw [hr]
      simp
    · rw [hdb]
    · rw [hdb]
  · rw [hc]
    exact ⟨by simp, rfl, rfl⟩
  · rw [hdf] at h11
    exact absurd h11 (by simp)
  · rw [hc]
    refine ⟨by simp, ?_, rfl⟩
    simp only [deleteOrderDb, insertOrderDb]
    rw [List.filter_append, h1, h2, List.append_nil]
  · rw [h10] at hif
    exact absurd hif (by simp)

/-- Witness for itemsFail_compensation at the concrete request reqW. -/
theorem itemsFail_compensation_witness :
    (oracleItemsFailW.itemsInsertFails = true ∧
      oracleItemsFailW.orderDeleteFails = false ∧
      (∀ r ∈ dbW.orders, r.id ≠ 1)) ∧
    ((createOrder reqW dbW oracleItemsFailW 1 11 10 2026).resp ≠ HResp.ok ∧
      (createOrder reqW dbW oracleItemsFailW 1 11 10 2026).db.orders = dbW.orders ∧
      (createOrder reqW dbW oracleItemsFailW 1 11 10 2026).db.items = dbW.items) :=
  ⟨⟨by decide, by decide, by decide⟩,
   itemsFail_compensation reqW dbW oracleItemsFailW 1 11 10 2026
     (by decide) (by decide) (by decide)⟩

/-- C8: when createOrder succeeds, the persisted order row carries the total
computed as subtotal plus delivery fee plus tax minus discount (the subtotal
recomputed from the items when the supplied one is missing or zero); the
formula never mentions the client-supplied total field.  When this computed
total is negative or exceeds 100000, the request is rejected with 400 and
the database is untouched. -/
theorem createOrder_total_spec (req : CreateOrderReq) (db : DB) (o : Oracle)
    (orderId day month year : Nat) :
    ((createOrder req db o orderId day month year).resp = HResp.ok →
      ∃ r, (createOrder req db o orderId day month year).db.orders =
          db.orders ++ [r] ∧
        r.total = actualSubtotalOf req + jsOrNum req.delivery_fee 0
          + jsOrNum req.tax 0 - jsOrNum req.discount 0) ∧
    ((calculatedTotalOf req < 0 ∨ 100000 < calculatedTotalOf req) →
      (createOrder req db o orderId day month year).resp = HResp.badRequest ∧
      (createOrder req db o orderId day month year).db = db) := by
  constructor
  · intro h
    rcases createOrder_cases req db o orderId day month year with
      ⟨hr, _⟩ | ⟨_, _, hc | ⟨_, _, hc⟩ | ⟨_, _, hc⟩ | ⟨_, hc⟩⟩
    · rw [hr] at h
      exact absurd h (by simp)
    · rw [hc] at h
      exact absurd h (by simp)
    · rw [hc] at h
      exact absurd h (by simp)
    · rw [hc] at h
      exact absurd h (by simp)
    · rw [hc]
      refine ⟨mkOrderRow req orderId (finalOrderNumberOf req o day month year),
        ?_, by simp [mkOrderRow, calculatedTotalOf]⟩
      simp [notifyDb, txnDb, insertItemsDb, insertOrderDb, stockDb_orders]
  · intro hbad
    rcases createOrder_cases req db o orderId day month year with
      ⟨hr, hdb⟩ | ⟨hn0, hn1, _⟩
    · exact ⟨hr, hdb⟩
    · rcases hbad with hb | hb
      · exact absurd hb hn0
      · exact absurd hb hn1

/-- Request fixture whose computed total 200000 exceeds the 100000 guard. -/
def reqBigW : CreateOrderReq :=
  { reqW with subtotal := some 200000, total := some 200000 }

/-- Witness for createOrder_total_spec: the successful run of reqW persists
total 10, and reqBigW is rejected by the 100000 guard leaving the database
untouched. -/
theorem createOrder_total_spec_witness :
    ((createOrder reqW dbW oracleW 1 11 10 2026).resp = HResp.ok ∧
      ∃ r, (createOrder reqW dbW oracleW 1 11 10 2026).db.orders =
          dbW.orders ++ [r] ∧
        r.total = actualSubtotalOf reqW + jsOrNum reqW.delivery_fee 0
          + jsOrNum reqW.tax 0 - jsOrNum reqW.discount 0) ∧
    ((calculatedTotalOf reqBigW < 0 ∨ 100000 < calculatedTotalOf reqBigW) ∧
      (createOrder reqBigW dbW oracleW 1 11 10 2026).resp = HResp.badRequest ∧
      (createOrder reqBigW dbW oracleW 1 11 10 2026).db = dbW) :=
  ⟨⟨by decide, (createOrder_total_spec reqW dbW oracleW 1 11 10 2026).1 (by decide)⟩,
   ⟨Or.inr (by decide),
    (createOrder_total_spec reqBigW dbW oracleW 1 11 10 2026).2
      (Or.inr (by decide))⟩⟩

end Ventech
